import Mathlib

/-!
Verification of the qwik-realestate-backend property routes.

The repository is an Express + Mongoose REST backend.  The definitions below
shallowly embed the route handlers of `routes/property` (the two revisions in
`src/unnamed/part_001` and `src/unnamed/part_002`), the Mongoose schema
(`src/unnamed/part_004`) and the pieces of JavaScript / MongoDB semantics the
handlers rely on:

* JavaScript `Number()` coercion, with `NaN` made explicit (`JNum`);
* MongoDB comparison of numbers, where `NaN` equals only `NaN` and is below
  every number in the BSON ordering used for range operators;
* JavaScript truthiness of query-string values (`""` is falsy, every other
  string truthy) and of numeric body values (`0` is falsy);
* `String.prototype.split(",")` and `trim()`;
* `new RegExp(pattern, "i").test(s)` for the fragment of patterns made of
  literal characters and the `.` wildcard (the only metacharacter modelled);
* the `2dsphere` geospatial operators on a spherical Earth of radius
  6378.1 km (the constant written in the source): the listing's angular
  great-circle distance to the query center is an abstract parameter `gd`.

Machine floats are modelled by `ℚ` (exact arithmetic); the document store by a
list of documents keyed by a string id.
-/

namespace QwikRealEstate

/-- A JavaScript number: either an actual (rational-modelled) value or `NaN`. -/
inductive JNum where
  | num (q : ℚ)
  | nan
deriving DecidableEq

/-- MongoDB `$lte`/`$gte` comparison on the numbers that reach the store.
Executed queries never carry `NaN`: Mongoose's query cast (`castNumber`
asserts `!isNaN(val)`) throws a CastError first — see
`castListingQueryFails` below — so only the `num`/`num` branch is ever
exercised by `searchEndpoint`; the `nan` branches merely totalize the
function. -/
def jnumLe : JNum → JNum → Bool
  | .nan, _ => true
  | .num _, .nan => false
  | .num a, .num b => decide (a ≤ b)

/-- MongoDB equality match on the numbers that reach the store.  As with
`jnumLe`, a `NaN` filter value is rejected by the Mongoose query cast before
the store is queried, so only the `num`/`num` branch is reachable through
`searchEndpoint`. -/
def jnumEq : JNum → JNum → Bool
  | .nan, .nan => true
  | .num a, .num b => decide (a = b)
  | _, _ => false

/-- Decimal digit test. -/
def isDigitCh (c : Char) : Bool := '0' ≤ c && c ≤ '9'

/-- Hexadecimal digit test (for ObjectId validation). -/
def isHexCh (c : Char) : Bool :=
  isDigitCh c || ('a' ≤ c && c ≤ 'f') || ('A' ≤ c && c ≤ 'F')

/-- Numeric value of a list of decimal digit characters. -/
def digitsVal (cs : List Char) : Nat :=
  cs.foldl (fun a c => a * 10 + (c.toNat - 48)) 0

/-- Parse an unsigned decimal literal `digits [. digits]` (at least one digit
in total), as accepted by JavaScript `Number()`. -/
def parseDecCore (cs : List Char) : Option ℚ :=
  let intPart := cs.takeWhile isDigitCh
  let rest := cs.dropWhile isDigitCh
  match rest with
  | [] => if intPart.isEmpty then none else some ((digitsVal intPart : ℚ))
  | '.' :: frac =>
    if frac.all isDigitCh && !(intPart.isEmpty && frac.isEmpty) then
      some ((digitsVal intPart : ℚ) + (digitsVal frac : ℚ) / (10 ^ frac.length))
    else none
  | _ => none

/-- JavaScript whitespace trimming (`String.prototype.trim`), on char lists. -/
def trimChars (cs : List Char) : List Char :=
  ((cs.dropWhile Char.isWhitespace).reverse.dropWhile Char.isWhitespace).reverse

/-- JavaScript `Number(s)` on the decimal fragment: whitespace-only coerces to
`0`, signed decimal literals to their value, everything else to `NaN`. -/
def jsNumber (s : String) : JNum :=
  match trimChars s.toList with
  | [] => .num 0
  | '-' :: rest => (match parseDecCore rest with
      | some q => .num (-q)
      | none => .nan)
  | '+' :: rest => (match parseDecCore rest with
      | some q => .num q
      | none => .nan)
  | cs => (match parseDecCore cs with
      | some q => .num q
      | none => .nan)

/-- JavaScript truthiness of an optional query-string value: absent and `""`
are falsy, every other string truthy. -/
def strTruthy : Option String → Bool
  | none => false
  | some s => decide (s ≠ "")

/-- The string behind an optional parameter (only inspected when truthy). -/
def optStr (o : Option String) : String := o.getD ""

/-- JavaScript `split(",")` on char lists: splits at every comma, never
returns an empty list. -/
def splitComma : List Char → List (List Char)
  | [] => [[]]
  | c :: cs =>
    if c = ',' then [] :: splitComma cs
    else
      match splitComma cs with
      | [] => [[c]]
      | g :: gs => (c :: g) :: gs

/-- `amenities.toString().split(",").map((a) => a.trim())` from the routes. -/
def amenityTags (s : String) : List String :=
  (splitComma s.toList).map (fun g => String.mk (trimChars g))

/-- Case-insensitive single-character match of a pattern character: `.` is the
regex wildcard, every other modelled character matches itself up to case. -/
def charMatchI (p c : Char) : Bool := p = '.' || p.toLower = c.toLower

/-- Match a regex pattern (literal chars and `.`) against a prefix of the
subject. -/
def matchFront : List Char → List Char → Bool
  | [], _ => true
  | _ :: _, [] => false
  | p :: ps, c :: cs => charMatchI p c && matchFront ps cs

/-- Search the pattern at every position of the subject. -/
def regexSearch (ps : List Char) : List Char → Bool
  | [] => matchFront ps []
  | c :: cs => matchFront ps (c :: cs) || regexSearch ps cs

/-- `new RegExp(pat, "i").test(s)` — the location filter of the routes — for
patterns made of literal characters and the `.` wildcard (the only regex
metacharacter in the model). -/
def regexIMatch (pat s : String) : Bool :=
  regexSearch pat.toList s.toList

/-- Case-insensitive exact-prefix test on char lists (spec side). -/
def litFront : List Char → List Char → Bool
  | [], _ => true
  | _ :: _, [] => false
  | p :: ps, c :: cs => p.toLower = c.toLower && litFront ps cs

/-- Spec-side predicate, following the spec's words: `location`:
case-insensitive substring match against the location field. -/
def ciSubstrSpec (pat s : String) : Bool :=
  go pat.toList s.toList
where
  go (ps : List Char) : List Char → Bool
    | [] => litFront ps []
    | c :: cs => litFront ps (c :: cs) || go ps cs

/-- A property document, after the Mongoose schema `models/Property`
(`src/unnamed/part_004`): `id` is the ObjectId hex string, `coordinates` is
`[lng, lat]`, `images` holds the Cloudinary public ids. -/
structure Property where
  id : String
  title : String
  description : String
  price : ℚ
  location : String
  ptype : String
  amenities : List String
  images : List String
  agent : String
  bedrooms : ℚ
  bathrooms : ℚ
  squareFootage : ℚ
  status : String
  views : Nat
  coordinates : ℚ × ℚ
  createdAt : Nat
deriving DecidableEq

/-- The query-string parameters of `GET /api/properties`
(`src/unnamed/part_001` lines 152-171).  Raw filter values are optional
strings (absent parameters are `none`); `page`/`limit` are modelled after the
unary-plus coercion of their (defaulted) values, `sort`/`order` after their
defaulted values. -/
structure QueryParams where
  location : Option String := none
  priceMin : Option String := none
  priceMax : Option String := none
  ptype : Option String := none
  amenities : Option String := none
  bedrooms : Option String := none
  bathrooms : Option String := none
  squareFootageMin : Option String := none
  squareFootageMax : Option String := none
  search : Option String := none
  lat : Option String := none
  lng : Option String := none
  radius : Option String := none
  page : Nat := 1
  limit : Nat := 10
  sort : String := "createdAt"
  order : String := "desc"
deriving DecidableEq

/-- The `$near` geospatial clause of `src/unnamed/part_001` lines 186-193:
`$maxDistance: Number(radius) * 1000` meters around
`[Number(lng), Number(lat)]`.  `gd` gives the angular great-circle distance
(radians) between two `(lng, lat)` points; on the source's spherical Earth of
radius 6378.1 km an angle θ is `θ * 6378100` meters.  Unparseable coordinates
produce `NaN` bounds, which match no document. -/
def nearClause (gd : ℚ × ℚ → ℚ × ℚ → ℚ) (latS lngS radS : String)
    (l : Property) : Bool :=
  match jsNumber latS, jsNumber lngS, jsNumber radS with
  | .num la, .num ln, .num r =>
      decide (gd (ln, la) l.coordinates * 6378100 ≤ r * 1000)
  | _, _, _ => false

/-- The `$geoWithin`/`$centerSphere` clause of `src/unnamed/part_002` lines
62-69: angular radius `Number(radius) / 6378.1` radians around
`[Number(lng), Number(lat)]`. -/
def centerSphereClause (gd : ℚ × ℚ → ℚ × ℚ → ℚ) (latS lngS radS : String)
    (l : Property) : Bool :=
  match jsNumber latS, jsNumber lngS, jsNumber radS with
  | .num la, .num ln, .num r =>
      decide (gd (ln, la) l.coordinates ≤ r / 6378.1)
  | _, _, _ => false

/-- Spec-side geospatial predicate, following the spec's words: matches
listings whose coordinate lies within `radius` kilometers (great-circle
distance) of `(lat, lng)`.  On the 6378.1 km sphere the great-circle distance
of an angle θ is `θ * 6378.1` kilometers. -/
def withinKmSpec (gd : ℚ × ℚ → ℚ × ℚ → ℚ) (latS lngS radS : String)
    (l : Property) : Bool :=
  match jsNumber latS, jsNumber lngS, jsNumber radS with
  | .num la, .num ln, .num r =>
      decide (gd (ln, la) l.coordinates * 6378.1 ≤ r)
  | _, _, _ => false

/-- Whether a document matches the filter built by `GET /api/properties`
(`src/unnamed/part_001` lines 173-212).  All clauses combine by AND; each
clause applies only when its parameter is truthy, exactly as the `if`s of the
source.  `gd` abstracts the geospatial distance, `tp` the `$text` full-text
predicate (both external to the repository). -/
def listingMatches (gd : ℚ × ℚ → ℚ × ℚ → ℚ) (tp : String → Property → Bool)
    (ps : QueryParams) (l : Property) : Bool :=
  (if strTruthy ps.search then tp (optStr ps.search) l else true) &&
  (if strTruthy ps.lat && strTruthy ps.lng && strTruthy ps.radius then
     nearClause gd (optStr ps.lat) (optStr ps.lng) (optStr ps.radius) l
   else true) &&
  (if strTruthy ps.location then regexIMatch (optStr ps.location) l.location
   else true) &&
  (if strTruthy ps.ptype then decide (l.ptype = optStr ps.ptype) else true) &&
  (if strTruthy ps.amenities then
     (amenityTags (optStr ps.amenities)).all (fun t => l.amenities.contains t)
   else true) &&
  (if strTruthy ps.bedrooms then
     jnumEq (jsNumber (optStr ps.bedrooms)) (.num l.bedrooms)
   else true) &&
  (if strTruthy ps.bathrooms then
     jnumEq (jsNumber (optStr ps.bathrooms)) (.num l.bathrooms)
   else true) &&
  (if strTruthy ps.priceMin then
     jnumLe (jsNumber (optStr ps.priceMin)) (.num l.price)
   else true) &&
  (if strTruthy ps.priceMax then
     jnumLe (.num l.price) (jsNumber (optStr ps.priceMax))
   else true) &&
  (if strTruthy ps.squareFootageMin then
     jnumLe (jsNumber (optStr ps.squareFootageMin)) (.num l.squareFootage)
   else true) &&
  (if strTruthy ps.squareFootageMax then
     jnumLe (.num l.squareFootage) (jsNumber (optStr ps.squareFootageMax))
   else true)

/-- Whether a document matches the filter of the agent-scoped endpoint
`GET /api/properties/user` (`src/unnamed/part_001` lines 467-534): the public
filter plus `agent: req.user._id` and the optional `status` clause. -/
def listingMatchesUser (gd : ℚ × ℚ → ℚ × ℚ → ℚ)
    (tp : String → Property → Bool) (uid : String)
    (statusParam : Option String) (ps : QueryParams) (l : Property) : Bool :=
  decide (l.agent = uid) &&
  (if strTruthy statusParam then decide (l.status = optStr statusParam)
   else true) &&
  listingMatches gd tp ps l

/-- Sort key of a document for a given sort field (the fields of the schema a
`.sort({[sort]: ±1})` can meaningfully order by; unknown fields give a
constant key, i.e. leave the order unchanged). -/
def sortKeyOf (field : String) (l : Property) : ℚ :=
  if field = "price" then l.price
  else if field = "createdAt" then (l.createdAt : ℚ)
  else if field = "views" then (l.views : ℚ)
  else if field = "bedrooms" then l.bedrooms
  else if field = "bathrooms" then l.bathrooms
  else if field = "squareFootage" then l.squareFootage
  else 0

/-- Insert into a list sorted by `le` (helper for the sort model). -/
def insertBy (le : Property → Property → Bool) (a : Property) :
    List Property → List Property
  | [] => [a]
  | b :: bs => if le a b then a :: b :: bs else b :: insertBy le a bs

/-- Insertion sort; models the store's stable single-field sort. -/
def sortBy (le : Property → Property → Bool) :
    List Property → List Property
  | [] => []
  | a :: as => insertBy le a (sortBy le as)

/-- `.sort({[sort]: order === "desc" ? -1 : 1})` from the routes. -/
def sortListings (field ord : String) (ls : List Property) : List Property :=
  sortBy (fun a b =>
    if ord = "desc" then decide (sortKeyOf field b ≤ sortKeyOf field a)
    else decide (sortKeyOf field a ≤ sortKeyOf field b)) ls

/-- `Math.ceil(a / b)` for non-negative integers and positive `b`. -/
def ceilPages (a b : Nat) : Nat := (a + b - 1) / b

/-- The response envelope of the search endpoints. -/
structure SearchResponse where
  success : Bool
  count : Nat
  total : Nat
  page : Nat
  pages : Nat
  properties : List Property
deriving DecidableEq

/-- The whole `GET /api/properties` pipeline (`src/unnamed/part_001` lines
214-229): `total = countDocuments(query)`, the page is
`find(query).sort(...).skip((page-1)*limit).limit(limit)`, and the envelope
fields `count`, `total`, `page`, `pages = Math.ceil(total/limit)`. -/
def runSearch (gd : ℚ × ℚ → ℚ × ℚ → ℚ) (tp : String → Property → Bool)
    (ps : QueryParams) (db : List Property) : SearchResponse :=
  let found := db.filter (listingMatches gd tp ps)
  let total := found.length
  let items :=
    ((sortListings ps.sort ps.order found).drop ((ps.page - 1) * ps.limit)).take
      ps.limit
  { success := true
    count := items.length
    total := total
    page := ps.page
    pages := ceilPages total ps.limit
    properties := items }

/-- Whether Mongoose's query cast rejects the filter built from these
parameters.  Every numeric filter clause is cast with `castNumber`
(mongoose `lib/cast/number.js`), which asserts `!isNaN(val)`; a truthy
numeric parameter whose `Number()` coercion is `NaN` therefore makes
`countDocuments`/`find` throw a CastError before the store is queried. -/
def castListingQueryFails (ps : QueryParams) : Bool :=
  (strTruthy ps.bedrooms && decide (jsNumber (optStr ps.bedrooms) = JNum.nan)) ||
  (strTruthy ps.bathrooms && decide (jsNumber (optStr ps.bathrooms) = JNum.nan)) ||
  (strTruthy ps.priceMin && decide (jsNumber (optStr ps.priceMin) = JNum.nan)) ||
  (strTruthy ps.priceMax && decide (jsNumber (optStr ps.priceMax) = JNum.nan)) ||
  (strTruthy ps.squareFootageMin &&
    decide (jsNumber (optStr ps.squareFootageMin) = JNum.nan)) ||
  (strTruthy ps.squareFootageMax &&
    decide (jsNumber (optStr ps.squareFootageMax) = JNum.nan))

/-- Outcome of a search request: the success envelope, or an error response
produced by the handler's catch block. -/
inductive SearchOutcome where
  | ok (r : SearchResponse)
  | error (status : Nat) (message : String)
deriving DecidableEq

/-- The whole `GET /api/properties` handler including its try/catch
(`src/unnamed/part_001` lines 214-235): when the query cast rejects the
filter, the thrown CastError lands in the catch block and the endpoint
answers `500 Server Error`; otherwise the success envelope of `runSearch`
is returned. -/
def searchEndpoint (gd : ℚ × ℚ → ℚ × ℚ → ℚ) (tp : String → Property → Bool)
    (ps : QueryParams) (db : List Property) : SearchOutcome :=
  if castListingQueryFails ps then .error 500 "Server Error"
  else .ok (runSearch gd tp ps db)

/-- Server state: the property collection and the set of Cloudinary public
ids currently stored remotely. -/
structure AppState where
  docs : List Property
  cloud : List String
deriving DecidableEq

/-- `Property.findById`: first document with the given id. -/
def findById (db : List Property) (i : String) : Option Property :=
  db.find? (fun p => p.id = i)

/-- `document.save()` after mutating a fetched document: replaces the stored
document with the same id. -/
def saveDoc (db : List Property) (p : Property) : List Property :=
  db.map (fun q => if q.id = p.id then p else q)

/-- `document.deleteOne()`: removes the document with the given id. -/
def removeDoc (db : List Property) (i : String) : List Property :=
  db.filter (fun p => !(p.id = i))

/-- `mongoose.isValidObjectId` on a route parameter string: any 12-character
string, or a 24-character hexadecimal string. -/
def isValidObjectIdStr (s : String) : Bool :=
  s.length = 12 || (s.length = 24 && s.toList.all isHexCh)

/-- Response of the single-document handlers: HTTP status, success flag, the
returned property when any, and the error message when any. -/
structure ApiResult where
  status : Nat
  success : Bool
  property : Option Property := none
  message : String := ""
deriving DecidableEq

/-- `GET /api/properties/:id` (`src/unnamed/part_001` lines 662-683):
validate the ObjectId (400), look the document up (404), increment `views`,
save, and respond with the updated document. -/
def getPropertyById (st : AppState) (idS : String) : AppState × ApiResult :=
  if !isValidObjectIdStr idS then
    (st, { status := 400, success := false, message := "Invalid property ID" })
  else
    match findById st.docs idS with
    | none =>
        (st, { status := 404, success := false, message := "Property not found" })
    | some p =>
        let p2 := { p with views := p.views + 1 }
        ({ st with docs := saveDoc st.docs p2 },
         { status := 200, success := true, property := some p2 })

/-- The status enum of `PATCH /:id/status` (`src/unnamed/part_001` line 740). -/
def validStatuses : List String := ["active", "sold", "pending", "rented"]

/-- `PATCH /api/properties/:id/status` (`src/unnamed/part_001` lines
732-763): ObjectId check (400), then status-enum check (400), then lookup
(404), then owner-or-admin check (403), then mutate and save. -/
def updateStatus (st : AppState) (idS statusV uid role : String) :
    AppState × ApiResult :=
  if !isValidObjectIdStr idS then
    (st, { status := 400, success := false, message := "Invalid property ID" })
  else if !(validStatuses.contains statusV) then
    (st, { status := 400, success := false, message := "Invalid status value" })
  else
    match findById st.docs idS with
    | none =>
        (st, { status := 404, success := false, message := "Property not found" })
    | some p =>
        if !(p.agent = uid || role = "admin") then
          (st, { status := 403, success := false, message := "Not authorized" })
        else
          let p2 := { p with status := statusV }
          ({ st with docs := saveDoc st.docs p2 },
           { status := 200, success := true, property := some p2 })

/-- `DELETE /api/properties/:id` (`src/unnamed/part_001` lines 921-951):
ObjectId check (400), lookup (404), owner-or-admin check (403), then destroy
the document's Cloudinary images and delete the document. -/
def deleteProperty (st : AppState) (idS uid role : String) :
    AppState × ApiResult :=
  if !isValidObjectIdStr idS then
    (st, { status := 400, success := false, message := "Invalid property ID" })
  else
    match findById st.docs idS with
    | none =>
        (st, { status := 404, success := false, message := "Property not found" })
    | some p =>
        if !(p.agent = uid || role = "admin") then
          (st, { status := 403, success := false, message := "Not authorized" })
        else
          ({ docs := removeDoc st.docs idS
             cloud := st.cloud.filter (fun c => !(p.images.contains c)) },
           { status := 200, success := true, message := "Property deleted" })

/-- JavaScript truthiness of an optional numeric body value: absent and `0`
are falsy (the `lat && lng` guard of the update handler on a JSON body,
where lat/lng arrive as JSON numbers). -/
def numTruthy : Option ℚ → Bool
  | none => false
  | some q => decide (q ≠ 0)

/-- The multipart form body of `POST /api/properties`.  The route only
succeeds on multipart requests (a non-multipart body leaves `req.files`
undefined and `req.files.map` throws before `Property.create` runs), and
multer delivers every text field as a string.  `price` is carried as its
validated numeric value (`validateProperty` enforces `isNumeric`); the
optional fields are the raw strings. -/
structure CreateBody where
  title : String
  description : String
  price : ℚ
  location : String
  ptype : String
  amenities : Option String := none
  bedrooms : Option String := none
  bathrooms : Option String := none
  squareFootage : Option String := none
  lat : Option String := none
  lng : Option String := none
deriving DecidableEq

/-- `Number(x) || 0` on an optional body string: absent, empty, zero and
unparseable (`NaN` is falsy) values all give 0. -/
def numOrZero (o : Option String) : ℚ :=
  match jsNumber (o.getD "") with
  | .num q => q
  | .nan => 0

/-- The document built by `POST /api/properties` (`src/unnamed/part_001`
lines 296-331): `Number(x) || 0` defaults for the optional numerics, comma
split for amenities, and `locationCoordinates` supplied only when
`lat && lng` is truthy.  Because the fields are multipart strings, the guard
is string truthiness — only an absent or empty `lat`/`lng` falls back to the
schema default `[0, 0]` (`src/unnamed/part_004` lines 18-21); a supplied
coordinate is `[Number(lng), Number(lat)]`, and a `NaN` coordinate makes the
Mongoose document cast reject the create (`none`, surfaced as the 500
branch). -/
def createProperty (newId agentId : String) (files : List String) (now : Nat)
    (b : CreateBody) : Option Property :=
  let coords : Option (ℚ × ℚ) :=
    if strTruthy b.lat && strTruthy b.lng then
      match jsNumber (optStr b.lng), jsNumber (optStr b.lat) with
      | .num ln, .num la => some (ln, la)
      | _, _ => none
    else some (0, 0)
  coords.map (fun c =>
    { id := newId
      title := b.title
      description := b.description
      price := b.price
      location := b.location
      ptype := b.ptype
      amenities :=
        match b.amenities with
        | some s => if s ≠ "" then amenityTags s else []
        | none => []
      images := files
      agent := agentId
      bedrooms := numOrZero b.bedrooms
      bathrooms := numOrZero b.bathrooms
      squareFootage := numOrZero b.squareFootage
      status := "active"
      views := 0
      coordinates := c
      createdAt := now })

/-- The JSON body of `PUT /api/properties/:id`: multer passes non-multipart
requests through and `express.json` parses them, so scalar fields arrive as
JSON values — numeric fields as numbers.  Amenities arrive as an array in
this route (`req.body.amenities || []`). -/
structure PutBody where
  title : String
  description : String
  price : ℚ
  location : String
  ptype : String
  amenities : Option (List String) := none
  bedrooms : Option ℚ := none
  bathrooms : Option ℚ := none
  squareFootage : Option ℚ := none
  lat : Option ℚ := none
  lng : Option ℚ := none
deriving DecidableEq

/-- `PUT /api/properties/:id` (`src/unnamed/part_001` lines 833-892):
ObjectId check (400), lookup (404), owner-or-admin check (403); then, when
new files were uploaded, destroy the old Cloudinary images and replace the
image list; overwrite every field from the body, and set
`locationCoordinates` only when `req.body.lat && req.body.lng` is truthy
(lines 881-883) — otherwise the stored coordinates persist. -/
def putProperty (st : AppState) (idS uid role : String) (files : List String)
    (b : PutBody) : AppState × ApiResult :=
  if !isValidObjectIdStr idS then
    (st, { status := 400, success := false, message := "Invalid property ID" })
  else
    match findById st.docs idS with
    | none =>
        (st, { status := 404, success := false, message := "Property not found" })
    | some p =>
        if !(p.agent = uid || role = "admin") then
          (st, { status := 403, success := false, message := "Not authorized" })
        else
          let imgs := if files.isEmpty then p.images else files
          let p2 : Property :=
            { p with
              title := b.title
              description := b.description
              price := b.price
              location := b.location
              ptype := b.ptype
              amenities := b.amenities.getD []
              bedrooms := b.bedrooms.getD 0
              bathrooms := b.bathrooms.getD 0
              squareFootage := b.squareFootage.getD 0
              images := imgs
              coordinates :=
                if numTruthy b.lat && numTruthy b.lng then
                  (b.lng.getD 0, b.lat.getD 0)
                else p.coordinates }
          ({ docs := saveDoc st.docs p2
             cloud :=
               if files.isEmpty then st.cloud
               else st.cloud.filter (fun c => !(p.images.contains c)) },
           { status := 200, success := true, property := some p2 })

/-- A degenerate angular-distance function (all points coincide), used to
instantiate the abstract geospatial parameter on concrete examples. -/
def gdZero : ℚ × ℚ → ℚ × ℚ → ℚ := fun _ _ => 0

/-- A degenerate full-text predicate, used to instantiate the abstract
`$text` parameter on concrete examples. -/
def tpAll : String → Property → Bool := fun _ _ => true

/-- A concrete listing used by the concrete-instance theorems below. -/
def poolListing : Property :=
  { id := "aaaaaaaaaaaaaaaaaaaaaaaa"
    title := "Villa"
    description := "A villa"
    price := 250000
    location := "Lagos"
    ptype := "house"
    amenities := ["pool"]
    images := ["img1"]
    agent := "bbbbbbbbbbbbbbbbbbbbbbbb"
    bedrooms := 3
    bathrooms := 2
    squareFootage := 1200
    status := "active"
    views := 0
    coordinates := (3, 6)
    createdAt := 5 }

/-- A concrete one-listing server state for the concrete-instance theorems. -/
def stOne : AppState := { docs := [poolListing], cloud := ["img1"] }

/-- The empty server state. -/
def stEmpty : AppState := { docs := [], cloud := [] }

/-- A concrete multipart create body carrying `lat = 0` as the form string
`"0"` (equator) and `lng = 9`. -/
def createBodyZeroLat : CreateBody :=
  { title := "T", description := "D", price := 1, location := "L"
    ptype := "house", lat := some "0", lng := some "9" }

/-- A concrete multipart create body with no latitude field. -/
def createBodyNoLat : CreateBody :=
  { title := "T", description := "D", price := 1, location := "L"
    ptype := "house", lat := none, lng := some "9" }

/-- A concrete JSON update body carrying the number `lat = 0` (equator). -/
def putBodyZeroLat : PutBody :=
  { title := "T2", description := "D2", price := 2, location := "L2"
    ptype := "condo", lat := some 0, lng := some 9 }

/-! ### Helper lemmas -/

lemma length_insertBy (le : Property → Property → Bool) (a : Property)
    (l : List Property) : (insertBy le a l).length = l.length + 1 := by
  induction l with
  | nil => rfl
  | cons b bs ih =>
    by_cases h : le a b = true
    · simp [insertBy, h]
    · simp [insertBy, h, ih]

lemma mem_insertBy (le : Property → Property → Bool) (a b : Property)
    (l : List Property) : b ∈ insertBy le a l ↔ b = a ∨ b ∈ l := by
  induction l with
  | nil => simp [insertBy]
  | cons c cs ih =>
    by_cases h : le a c = true
    · simp [insertBy, h]
    · simp [insertBy, h, ih]
      tauto

lemma length_sortBy (le : Property → Property → Bool) (l : List Property) :
    (sortBy le l).length = l.length := by
  induction l with
  | nil => rfl
  | cons a as ih => simp [sortBy, length_insertBy, ih]

lemma mem_sortBy (le : Property → Property → Bool) (a : Property)
    (l : List Property) : a ∈ sortBy le l ↔ a ∈ l := by
  induction l with
  | nil => simp [sortBy]
  | cons b bs ih => simp [sortBy, mem_insertBy, ih]

lemma length_sortListings (field ord : String) (l : List Property) :
    (sortListings field ord l).length = l.length := by
  simp [sortListings, length_sortBy]

lemma mem_sortListings (field ord : String) (a : Property)
    (l : List Property) : a ∈ sortListings field ord l ↔ a ∈ l := by
  simp [sortListings, mem_sortBy]

lemma ceilPages_bounds (t L : Nat) (h : 1 ≤ L) :
    t ≤ ceilPages t L * L ∧ ceilPages t L * L < t + L := by
  unfold ceilPages
  have h0 : 0 < L := h
  have hub : (t + L - 1) / L * L ≤ t + L - 1 := Nat.div_mul_le_self _ _
  have hlb : t + L - 1 < ((t + L - 1) / L + 1) * L :=
    (Nat.div_lt_iff_lt_mul h0).mp (Nat.lt_succ_self _)
  have hmul : ((t + L - 1) / L + 1) * L = (t + L - 1) / L * L + L := by ring
  omega

lemma ceilPages_eq_ceil (t L : Nat) (h : 1 ≤ L) :
    (ceilPages t L : ℤ) = ⌈(t : ℚ) / (L : ℚ)⌉ := by
  obtain ⟨h1, h2⟩ := ceilPages_bounds t L h
  have hL0 : (0 : ℚ) < (L : ℚ) := by exact_mod_cast h
  have h1q : (t : ℚ) ≤ (ceilPages t L : ℚ) * (L : ℚ) := by exact_mod_cast h1
  have h2q : (ceilPages t L : ℚ) * (L : ℚ) < (t : ℚ) + (L : ℚ) := by
    exact_mod_cast h2
  symm
  rw [Int.ceil_eq_iff]
  constructor
  · rw [lt_div_iff₀ hL0]
    push_cast
    nlinarith
  · rw [div_le_iff₀ hL0]
    push_cast
    exact h1q

lemma ceilPages_eq_zero_iff (t L : Nat) (h : 1 ≤ L) :
    ceilPages t L = 0 ↔ t = 0 := by
  obtain ⟨h1, h2⟩ := ceilPages_bounds t L h
  constructor
  · intro hp
    rw [hp] at h1
    simpa using h1
  · intro ht
    subst ht
    unfold ceilPages
    exact Nat.div_eq_of_lt (by omega)

lemma jsNumber_nan_ne_empty {s : String} (h : jsNumber s = JNum.nan) :
    s ≠ "" := by
  intro he
  rw [he] at h
  exact absurd h (by decide)

lemma findById_saveDoc_self (db : List Property) (i : String) (p p2 : Property)
    (hf : findById db i = some p) (hid : p2.id = p.id) :
    findById (saveDoc db p2) i = some p2 := by
  have hpi : p.id = i := by
    have := List.find?_some hf
    simpa using this
  simp only [findById, saveDoc] at hf ⊢
  induction db with
  | nil => simp at hf
  | cons q qs ih =>
    by_cases hq : q.id = i
    · have hq2 : q.id = p2.id := by rw [hid, hpi, hq]
      rw [List.map_cons, if_pos hq2, List.find?_cons_of_pos]
      simp [hid, hpi]
    · have hq2 : ¬(q.id = p2.id) := by
        rw [hid, hpi]
        exact hq
      have hf' : List.find? (fun r => r.id = i) qs = some p := by
        rw [List.find?_cons_of_neg] at hf
        · exact hf
        · simp [hq]
      rw [List.map_cons, if_neg hq2, List.find?_cons_of_neg]
      · exact ih hf'
      · simp [hq]

lemma charMatchI_of_alnum {p : Char} (h : p.isAlphanum = true) (c : Char) :
    charMatchI p c = decide (p.toLower = c.toLower) := by
  have hp : ¬(p = '.') := by
    intro he
    rw [he] at h
    exact absurd h (by decide)
  simp [charMatchI, hp]

lemma matchFront_eq_litFront {ps : List Char}
    (h : ps.all Char.isAlphanum = true) :
    ∀ cs, matchFront ps cs = litFront ps cs := by
  induction ps with
  | nil => intro cs; cases cs <;> rfl
  | cons p pr ih =>
    intro cs
    simp only [List.all_cons, Bool.and_eq_true] at h
    cases cs with
    | nil => rfl
    | cons c cr =>
      simp [matchFront, litFront, charMatchI_of_alnum h.1, ih h.2]

lemma regexSearch_eq_go {ps : List Char}
    (h : ps.all Char.isAlphanum = true) :
    ∀ cs, regexSearch ps cs = ciSubstrSpec.go ps cs := by
  intro cs
  induction cs with
  | nil => simp [regexSearch, ciSubstrSpec.go, matchFront_eq_litFront h]
  | cons c cr ih =>
    simp [regexSearch, ciSubstrSpec.go, matchFront_eq_litFront h, ih]

lemma geoClause_iff (θ r : ℚ) :
    (θ * 6378100 ≤ r * 1000 ↔ θ ≤ r / 6378.1) ∧
    (θ * 6378100 ≤ r * 1000 ↔ θ * 6378.1 ≤ r) := by
  constructor
  · rw [le_div_iff₀ (by norm_num : (0 : ℚ) < 6378.1)]
    constructor <;> intro h <;> nlinarith
  · constructor <;> intro h <;> nlinarith

lemma nearClause_eq_centerSphereClause (gd : ℚ × ℚ → ℚ × ℚ → ℚ)
    (latS lngS radS : String) (l : Property) :
    nearClause gd latS lngS radS l = centerSphereClause gd latS lngS radS l := by
  unfold nearClause centerSphereClause
  cases jsNumber latS <;> cases jsNumber lngS <;> cases jsNumber radS <;>
    first
    | rfl
    | exact decide_eq_decide.mpr ((geoClause_iff _ _).1)

lemma nearClause_eq_withinKmSpec (gd : ℚ × ℚ → ℚ × ℚ → ℚ)
    (latS lngS radS : String) (l : Property) :
    nearClause gd latS lngS radS l = withinKmSpec gd latS lngS radS l := by
  unfold nearClause withinKmSpec
  cases jsNumber latS <;> cases jsNumber lngS <;> cases jsNumber radS <;>
    first
    | rfl
    | exact decide_eq_decide.mpr ((geoClause_iff _ _).2)

lemma listingMatches_amenities_all {gd : ℚ × ℚ → ℚ × ℚ → ℚ}
    {tp : String → Property → Bool} {ps : QueryParams} {l : Property}
    (h : listingMatches gd tp ps l = true)
    (hA : strTruthy ps.amenities = true) :
    ∀ t ∈ amenityTags (optStr ps.amenities), l.amenities.contains t = true := by
  simp only [listingMatches, Bool.and_eq_true] at h
  obtain ⟨⟨⟨⟨⟨⟨⟨⟨⟨⟨h1, h2⟩, h3⟩, h4⟩, h5⟩, h6⟩, h7⟩, h8⟩, h9⟩, h10⟩, h11⟩ := h
  rw [hA, if_pos rfl] at h5
  exact List.all_eq_true.mp h5

lemma searchEndpoint_error_of_castFails (gd : ℚ × ℚ → ℚ × ℚ → ℚ)
    (tp : String → Property → Bool) (ps : QueryParams) (db : List Property)
    (h : castListingQueryFails ps = true) :
    searchEndpoint gd tp ps db = .error 500 "Server Error" := by
  simp [searchEndpoint, h]

lemma castFails_bedrooms {s : String} (h : jsNumber s = JNum.nan) :
    castListingQueryFails { bedrooms := some s } = true := by
  have hne : s ≠ "" := jsNumber_nan_ne_empty h
  simp [castListingQueryFails, strTruthy, optStr, hne, h]

lemma castFails_bathrooms {s : String} (h : jsNumber s = JNum.nan) :
    castListingQueryFails { bathrooms := some s } = true := by
  have hne : s ≠ "" := jsNumber_nan_ne_empty h
  simp [castListingQueryFails, strTruthy, optStr, hne, h]

lemma castFails_priceMin {s : String} (h : jsNumber s = JNum.nan) :
    castListingQueryFails { priceMin := some s } = true := by
  have hne : s ≠ "" := jsNumber_nan_ne_empty h
  simp [castListingQueryFails, strTruthy, optStr, hne, h]

lemma castFails_priceMax {s : String} (h : jsNumber s = JNum.nan) :
    castListingQueryFails { priceMax := some s } = true := by
  have hne : s ≠ "" := jsNumber_nan_ne_empty h
  simp [castListingQueryFails, strTruthy, optStr, hne, h]

lemma castFails_sqftMin {s : String} (h : jsNumber s = JNum.nan) :
    castListingQueryFails { squareFootageMin := some s } = true := by
  have hne : s ≠ "" := jsNumber_nan_ne_empty h
  simp [castListingQueryFails, strTruthy, optStr, hne, h]

lemma castFails_sqftMax {s : String} (h : jsNumber s = JNum.nan) :
    castListingQueryFails { squareFootageMax := some s } = true := by
  have hne : s ≠ "" := jsNumber_nan_ne_empty h
  simp [castListingQueryFails, strTruthy, optStr, hne, h]

/-! ### Claim theorems -/

/-- C1: on the public and the agent-scoped listing endpoints a truthy
`amenities` parameter is split at commas and each tag trimmed, and a listing
matches only if its amenity list contains every one of the tags; in
particular a listing whose amenity set is exactly `{pool}` is never returned
for `amenities=pool,gym`, and is returned for `amenities=pool`. -/
theorem amenities_all_of_superset :
    (∀ gd tp ps l, listingMatches gd tp ps l = true →
        strTruthy ps.amenities = true →
        ∀ t ∈ amenityTags (optStr ps.amenities), l.amenities.contains t = true) ∧
    (∀ gd tp uid stp ps l, listingMatchesUser gd tp uid stp ps l = true →
        strTruthy ps.amenities = true →
        ∀ t ∈ amenityTags (optStr ps.amenities), l.amenities.contains t = true) ∧
    (∀ gd tp l db, l.amenities = ["pool"] →
        l ∉ (runSearch gd tp { amenities := some "pool,gym" } db).properties) ∧
    (∀ gd tp l, l.amenities = ["pool"] →
        l ∈ (runSearch gd tp { amenities := some "pool" } [l]).properties) := by
  refine ⟨?_, ?_, ?_, ?_⟩
  · intro gd tp ps l h hA
    exact listingMatches_amenities_all h hA
  · intro gd tp uid stp ps l h hA
    simp only [listingMatchesUser, Bool.and_eq_true] at h
    exact listingMatches_amenities_all h.2 hA
  · intro gd tp l db hAm hmem
    simp only [runSearch] at hmem
    have h2 : l ∈ db.filter
        (listingMatches gd tp { amenities := some "pool,gym" }) :=
      (mem_sortListings _ _ _ _).mp
        (List.mem_of_mem_drop (List.mem_of_mem_take hmem))
    have h3 := (List.mem_filter.mp h2).2
    have h4 := listingMatches_amenities_all h3 (by decide) "gym" (by decide)
    rw [hAm] at h4
    exact absurd h4 (by decide)
  · intro gd tp l hAm
    have ht : amenityTags (optStr (some "pool")) = ["pool"] := by decide
    have hst : strTruthy (some "pool") = true := by decide
    have hm : listingMatches gd tp { amenities := some "pool" } l = true := by
      simp [listingMatches, strTruthy, hst, ht, hAm]
    simp [runSearch, hm, sortListings, sortBy, insertBy]

/-- C1 (witness): the concrete listing with amenity set `{pool}` is excluded
by `amenities=pool,gym` and included by `amenities=pool`. -/
theorem amenities_all_of_superset_witness :
    poolListing.amenities = ["pool"] ∧
    poolListing ∉
      (runSearch gdZero tpAll { amenities := some "pool,gym" }
        [poolListing]).properties ∧
    poolListing ∈
      (runSearch gdZero tpAll { amenities := some "pool" }
        [poolListing]).properties :=
  ⟨rfl,
   amenities_all_of_superset.2.2.1 gdZero tpAll poolListing [poolListing] rfl,
   amenities_all_of_superset.2.2.2 gdZero tpAll poolListing rfl⟩

/-- C2: for every filter combination with a positive limit and every dataset,
the search envelope satisfies `count = |properties| ≤ limit`,
`count ≤ total`, `pages = ⌈total / limit⌉`, and `pages = 0 ↔ total = 0`. -/
theorem search_envelope (gd : ℚ × ℚ → ℚ × ℚ → ℚ)
    (tp : String → Property → Bool) (ps : QueryParams) (db : List Property)
    (hL : 1 ≤ ps.limit) :
    (runSearch gd tp ps db).count = (runSearch gd tp ps db).properties.length ∧
    (runSearch gd tp ps db).count ≤ ps.limit ∧
    (runSearch gd tp ps db).count ≤ (runSearch gd tp ps db).total ∧
    ((runSearch gd tp ps db).pages : ℤ) =
      ⌈((runSearch gd tp ps db).total : ℚ) / (ps.limit : ℚ)⌉ ∧
    ((runSearch gd tp ps db).pages = 0 ↔ (runSearch gd tp ps db).total = 0) := by
  refine ⟨rfl, ?_, ?_, ?_, ?_⟩
  · simp only [runSearch, List.length_take]
    omega
  · simp only [runSearch, List.length_take, List.length_drop,
      length_sortListings]
    omega
  · simp only [runSearch]
    exact ceilPages_eq_ceil _ _ hL
  · simp only [runSearch]
    exact ceilPages_eq_zero_iff _ _ hL

/-- C2 (witness): the envelope properties at the default parameters on the
singleton dataset. -/
theorem search_envelope_witness :
    1 ≤ ({} : QueryParams).limit ∧
    ((runSearch gdZero tpAll {} [poolListing]).count =
        (runSearch gdZero tpAll {} [poolListing]).properties.length ∧
     (runSearch gdZero tpAll {} [poolListing]).count ≤ ({} : QueryParams).limit ∧
     (runSearch gdZero tpAll {} [poolListing]).count ≤
        (runSearch gdZero tpAll {} [poolListing]).total ∧
     ((runSearch gdZero tpAll {} [poolListing]).pages : ℤ) =
        ⌈((runSearch gdZero tpAll {} [poolListing]).total : ℚ) /
          (({} : QueryParams).limit : ℚ)⌉ ∧
     ((runSearch gdZero tpAll {} [poolListing]).pages = 0 ↔
        (runSearch gdZero tpAll {} [poolListing]).total = 0)) :=
  ⟨by decide, search_envelope gdZero tpAll {} [poolListing] (by decide)⟩

/-- C3: the `$near` form (`$maxDistance = radius * 1000` meters) and the
`$geoWithin`/`$centerSphere` form (angular radius `radius / 6378.1`) select
the same listings, namely those whose coordinate lies within `radius`
kilometers great-circle distance of the center, for every center, radius and
dataset (on the source's spherical Earth of radius 6378.1 km, where the
angular distance `gd` is arbitrary). -/
theorem geo_variants_select_same (gd : ℚ × ℚ → ℚ × ℚ → ℚ)
    (latS lngS radS : String) (db : List Property) :
    db.filter (nearClause gd latS lngS radS) =
      db.filter (centerSphereClause gd latS lngS radS) ∧
    db.filter (nearClause gd latS lngS radS) =
      db.filter (withinKmSpec gd latS lngS radS) :=
  ⟨List.filter_congr
      (fun a _ => nearClause_eq_centerSphereClause gd latS lngS radS a),
   List.filter_congr
      (fun a _ => nearClause_eq_withinKmSpec gd latS lngS radS a)⟩

/-- C4 (counterexample): an unparseable `bedrooms=abc` does NOT behave as if
the parameter were absent, and an error IS raised — `Number("abc")` is
`NaN`, the Mongoose query cast rejects it with a CastError when the query
executes, and the endpoint answers 500 Server Error; the same request
without the parameter succeeds and returns the listing. -/
theorem unparseable_numeric_cex :
    searchEndpoint gdZero tpAll { bedrooms := some "abc" } [poolListing] =
      SearchOutcome.error 500 "Server Error" ∧
    searchEndpoint gdZero tpAll ({} : QueryParams) [poolListing] =
      SearchOutcome.ok (runSearch gdZero tpAll {} [poolListing]) ∧
    (runSearch gdZero tpAll ({} : QueryParams) [poolListing]).properties
        = [poolListing] ∧
    searchEndpoint gdZero tpAll { bedrooms := some "abc" } [poolListing] ≠
      searchEndpoint gdZero tpAll ({} : QueryParams) [poolListing] := by
  refine ⟨by decide, by decide, by decide, by decide⟩

/-- C4 (amended): an unparseable numeric filter parameter does not behave
as if absent, and an error is raised: its `NaN` value makes the Mongoose
query cast throw a CastError, so for each of the six numeric parameters the
endpoint answers 500 Server Error instead of running the query; with the
parameter absent the query runs normally and returns the success
envelope. -/
theorem unparseable_numeric_amended (gd : ℚ × ℚ → ℚ × ℚ → ℚ)
    (tp : String → Property → Bool) (db : List Property) (s : String)
    (h : jsNumber s = JNum.nan) :
    searchEndpoint gd tp { bedrooms := some s } db =
      SearchOutcome.error 500 "Server Error" ∧
    searchEndpoint gd tp { bathrooms := some s } db =
      SearchOutcome.error 500 "Server Error" ∧
    searchEndpoint gd tp { priceMin := some s } db =
      SearchOutcome.error 500 "Server Error" ∧
    searchEndpoint gd tp { priceMax := some s } db =
      SearchOutcome.error 500 "Server Error" ∧
    searchEndpoint gd tp { squareFootageMin := some s } db =
      SearchOutcome.error 500 "Server Error" ∧
    searchEndpoint gd tp { squareFootageMax := some s } db =
      SearchOutcome.error 500 "Server Error" ∧
    searchEndpoint gd tp {} db = SearchOutcome.ok (runSearch gd tp {} db) :=
  ⟨searchEndpoint_error_of_castFails _ _ _ _ (castFails_bedrooms h),
   searchEndpoint_error_of_castFails _ _ _ _ (castFails_bathrooms h),
   searchEndpoint_error_of_castFails _ _ _ _ (castFails_priceMin h),
   searchEndpoint_error_of_castFails _ _ _ _ (castFails_priceMax h),
   searchEndpoint_error_of_castFails _ _ _ _ (castFails_sqftMin h),
   searchEndpoint_error_of_castFails _ _ _ _ (castFails_sqftMax h),
   rfl⟩

/-- C4 (witness): the amended behavior at the concrete unparseable value
`"abc"` on the singleton dataset. -/
theorem unparseable_numeric_amended_witness :
    jsNumber "abc" = JNum.nan ∧
    (searchEndpoint gdZero tpAll { bedrooms := some "abc" } [poolListing] =
       SearchOutcome.error 500 "Server Error" ∧
     searchEndpoint gdZero tpAll { bathrooms := some "abc" } [poolListing] =
       SearchOutcome.error 500 "Server Error" ∧
     searchEndpoint gdZero tpAll { priceMin := some "abc" } [poolListing] =
       SearchOutcome.error 500 "Server Error" ∧
     searchEndpoint gdZero tpAll { priceMax := some "abc" } [poolListing] =
       SearchOutcome.error 500 "Server Error" ∧
     searchEndpoint gdZero tpAll { squareFootageMin := some "abc" }
         [poolListing] = SearchOutcome.error 500 "Server Error" ∧
     searchEndpoint gdZero tpAll { squareFootageMax := some "abc" }
         [poolListing] = SearchOutcome.error 500 "Server Error" ∧
     searchEndpoint gdZero tpAll {} [poolListing] =
       SearchOutcome.ok (runSearch gdZero tpAll {} [poolListing])) :=
  ⟨by decide,
   unparseable_numeric_amended gdZero tpAll [poolListing] "abc" (by decide)⟩

/-- C5 (counterexample): the location filter is a regex test, not a
substring test — the filter string `.` matches the location `Lagos` (any
character) although `.` does not occur in it, so the claimed equivalence
with case-insensitive substring matching fails for strings containing regex
metacharacters. -/
theorem location_filter_regex_cex :
    regexIMatch "." "Lagos" = true ∧
    ciSubstrSpec "." "Lagos" = false ∧
    listingMatches gdZero tpAll { location := some "." } poolListing = true := by
  refine ⟨by decide, by decide, by decide⟩

/-- C5 (amended): for every filter string made only of alphanumeric
characters (no regex metacharacters) the location filter agrees with
case-insensitive substring matching; a metacharacter such as `.` is instead
interpreted as regex syntax. -/
theorem location_filter_regex_amended (pat s : String)
    (h : pat.toList.all Char.isAlphanum = true) :
    regexIMatch pat s = ciSubstrSpec pat s := by
  unfold regexIMatch ciSubstrSpec
  exact regexSearch_eq_go h _

/-- C5 (witness): the amended equivalence at a concrete alphanumeric filter
string, where both sides are true despite the case difference. -/
theorem location_filter_regex_amended_witness :
    ("pool".toList.all Char.isAlphanum = true) ∧
    regexIMatch "pool" "Has POOL" = ciSubstrSpec "pool" "Has POOL" :=
  ⟨by decide, location_filter_regex_amended "pool" "Has POOL" (by decide)⟩

lemma getPropertyById_found (st : AppState) (i : String) (p : Property)
    (hv : isValidObjectIdStr i = true) (hf : findById st.docs i = some p) :
    getPropertyById st i =
      ({ st with docs := saveDoc st.docs { p with views := p.views + 1 } },
       { status := 200, success := true,
         property := some { p with views := p.views + 1 } }) := by
  simp [getPropertyById, hv, hf]

/-- C6: every successful single-listing fetch increments the listing's view
counter by exactly 1 and persists it in the store before responding, and two
sequential successful fetches increment it by exactly 2. -/
theorem view_counter_increment (st : AppState) (i : String) (p : Property)
    (hv : isValidObjectIdStr i = true) (hf : findById st.docs i = some p) :
    (getPropertyById st i).2.status = 200 ∧
    (getPropertyById st i).2.property = some { p with views := p.views + 1 } ∧
    findById (getPropertyById st i).1.docs i =
      some { p with views := p.views + 1 } ∧
    findById (getPropertyById (getPropertyById st i).1 i).1.docs i =
      some { p with views := p.views + 2 } := by
  have e1 := getPropertyById_found st i p hv hf
  have hs1 : findById (saveDoc st.docs { p with views := p.views + 1 }) i =
      some { p with views := p.views + 1 } :=
    findById_saveDoc_self st.docs i p _ hf rfl
  have e2 := getPropertyById_found
    { st with docs := saveDoc st.docs { p with views := p.views + 1 } } i
    { p with views := p.views + 1 } hv hs1
  have hs2 : findById
      (saveDoc (saveDoc st.docs { p with views := p.views + 1 })
        { p with views := p.views + 2 }) i =
      some { p with views := p.views + 2 } :=
    findById_saveDoc_self _ i { p with views := p.views + 1 }
      { p with views := p.views + 2 } hs1 rfl
  refine ⟨by rw [e1], by rw [e1], by rw [e1]; exact hs1, ?_⟩
  rw [e1, e2]
  exact hs2

/-- C6 (witness): two sequential fetches of the concrete listing, starting
from zero views. -/
theorem view_counter_increment_witness :
    isValidObjectIdStr "aaaaaaaaaaaaaaaaaaaaaaaa" = true ∧
    findById stOne.docs "aaaaaaaaaaaaaaaaaaaaaaaa" = some poolListing ∧
    ((getPropertyById stOne "aaaaaaaaaaaaaaaaaaaaaaaa").2.status = 200 ∧
     (getPropertyById stOne "aaaaaaaaaaaaaaaaaaaaaaaa").2.property =
       some { poolListing with views := poolListing.views + 1 } ∧
     findById (getPropertyById stOne "aaaaaaaaaaaaaaaaaaaaaaaa").1.docs
       "aaaaaaaaaaaaaaaaaaaaaaaa" =
         some { poolListing with views := poolListing.views + 1 } ∧
     findById (getPropertyById
         (getPropertyById stOne "aaaaaaaaaaaaaaaaaaaaaaaa").1
         "aaaaaaaaaaaaaaaaaaaaaaaa").1.docs "aaaaaaaaaaaaaaaaaaaaaaaa" =
       some { poolListing with views := poolListing.views + 2 }) :=
  ⟨by decide, by decide,
   view_counter_increment stOne "aaaaaaaaaaaaaaaaaaaaaaaa" poolListing
     (by decide) (by decide)⟩

/-- C7: a malformed listing identifier yields the 400 invalid-identifier
response with the state untouched, a well-formed identifier matching no
listing yields the 404 not-found response, and a malformed identifier never
yields 404. -/
theorem id_error_taxonomy :
    (∀ st idS, isValidObjectIdStr idS = false →
        getPropertyById st idS =
          (st, { status := 400, success := false,
                 message := "Invalid property ID" })) ∧
    (∀ st idS, isValidObjectIdStr idS = true → findById st.docs idS = none →
        getPropertyById st idS =
          (st, { status := 404, success := false,
                 message := "Property not found" })) ∧
    (∀ st idS, isValidObjectIdStr idS = false →
        (getPropertyById st idS).2.status ≠ 404) := by
  refine ⟨?_, ?_, ?_⟩
  · intro st idS h
    simp [getPropertyById, h]
  · intro st idS hv hn
    simp [getPropertyById, hv, hn]
  · intro st idS h
    simp [getPropertyById, h]

/-- C7 (witness): the 400 and 404 outcomes at concrete identifiers. -/
theorem id_error_taxonomy_witness :
    isValidObjectIdStr "zz" = false ∧
    isValidObjectIdStr "cccccccccccccccccccccccc" = true ∧
    findById stEmpty.docs "cccccccccccccccccccccccc" = none ∧
    getPropertyById stEmpty "zz" =
      (stEmpty, { status := 400, success := false,
                  message := "Invalid property ID" }) ∧
    getPropertyById stEmpty "cccccccccccccccccccccccc" =
      (stEmpty, { status := 404, success := false,
                  message := "Property not found" }) ∧
    (getPropertyById stEmpty "zz").2.status ≠ 404 :=
  ⟨by decide, by decide, by decide,
   id_error_taxonomy.1 stEmpty "zz" (by decide),
   id_error_taxonomy.2.1 stEmpty "cccccccccccccccccccccccc" (by decide)
     (by decide),
   id_error_taxonomy.2.2 stEmpty "zz" (by decide)⟩

/-- C8: deleting an existing listing as an authenticated identity that is
neither the listing's agent nor an administrator yields the 403 forbidden
response and leaves the whole state — the listing and the remote images —
unchanged. -/
theorem delete_requires_owner_or_admin (st : AppState)
    (idS uid role : String) (p : Property)
    (hv : isValidObjectIdStr idS = true)
    (hf : findById st.docs idS = some p) (hown : ¬(p.agent = uid))
    (hrole : ¬(role = "admin")) :
    deleteProperty st idS uid role =
      (st, { status := 403, success := false, message := "Not authorized" }) ∧
    findById (deleteProperty st idS uid role).1.docs idS = some p ∧
    (deleteProperty st idS uid role).1.cloud = st.cloud := by
  have he : deleteProperty st idS uid role =
      (st, { status := 403, success := false, message := "Not authorized" }) := by
    simp [deleteProperty, hv, hf, hown, hrole]
  exact ⟨he, by rw [he]; exact hf, by rw [he]⟩

/-- C8 (witness): a concrete non-owner, non-admin delete attempt on the
concrete listing. -/
theorem delete_requires_owner_or_admin_witness :
    isValidObjectIdStr "aaaaaaaaaaaaaaaaaaaaaaaa" = true ∧
    findById stOne.docs "aaaaaaaaaaaaaaaaaaaaaaaa" = some poolListing ∧
    ¬(poolListing.agent = "dddddddddddddddddddddddd") ∧
    ¬("agent" = "admin") ∧
    (deleteProperty stOne "aaaaaaaaaaaaaaaaaaaaaaaa"
        "dddddddddddddddddddddddd" "agent" =
      (stOne, { status := 403, success := false,
                message := "Not authorized" }) ∧
     findById (deleteProperty stOne "aaaaaaaaaaaaaaaaaaaaaaaa"
        "dddddddddddddddddddddddd" "agent").1.docs "aaaaaaaaaaaaaaaaaaaaaaaa" =
       some poolListing ∧
     (deleteProperty stOne "aaaaaaaaaaaaaaaaaaaaaaaa"
        "dddddddddddddddddddddddd" "agent").1.cloud = stOne.cloud) :=
  ⟨by decide, by decide, by decide, by decide,
   delete_requires_owner_or_admin stOne "aaaaaaaaaaaaaaaaaaaaaaaa"
     "dddddddddddddddddddddddd" "agent" poolListing (by decide) (by decide)
     (by decide) (by decide)⟩

/-- C9: in the status-update handler the status enum is checked before the
listing lookup and before the ownership check: with a well-formed identifier
and a status outside the enum, the response is the 400 invalid-status error
and the state is unchanged, for every store (even one without the listing)
and every requester. -/
theorem status_validated_before_lookup (st : AppState)
    (idS statusV uid role : String) (hv : isValidObjectIdStr idS = true)
    (hs : validStatuses.contains statusV = false) :
    updateStatus st idS statusV uid role =
      (st, { status := 400, success := false,
             message := "Invalid status value" }) := by
  have hs2 : ¬(statusV ∈ validStatuses) := by simpa using hs
  simp [updateStatus, hv, hs2]

/-- C9 (witness): an invalid status value against a store in which the
listing does not even exist, from a non-owner requester. -/
theorem status_validated_before_lookup_witness :
    isValidObjectIdStr "cccccccccccccccccccccccc" = true ∧
    validStatuses.contains "archived" = false ∧
    updateStatus stEmpty "cccccccccccccccccccccccc" "archived" "u" "buyer" =
      (stEmpty, { status := 400, success := false,
                  message := "Invalid status value" }) :=
  ⟨by decide, by decide,
   status_validated_before_lookup stEmpty "cccccccccccccccccccccccc"
     "archived" "u" "buyer" (by decide) (by decide)⟩

/-- C10 (counterexample): creating a listing with `lat = 0` is a multipart
request where `lat` arrives as the string `"0"`, which is truthy, so the
guard passes and the listing stores the supplied coordinate `[9, 0]` — not
the schema default `[0, 0]` the claim predicts. -/
theorem zero_coordinate_cex :
    (createProperty "eeeeeeeeeeeeeeeeeeeeeeee" "bbbbbbbbbbbbbbbbbbbbbbbb" []
        7 createBodyZeroLat).map Property.coordinates = some (9, 0) ∧
    ¬((createProperty "eeeeeeeeeeeeeeeeeeeeeeee" "bbbbbbbbbbbbbbbbbbbbbbbb" []
        7 createBodyZeroLat).map Property.coordinates = some (0, 0)) := by
  refine ⟨by decide, by decide⟩

/-- C10 (amended): on create the multipart guard is string truthiness, so
the schema default `[0, 0]` applies exactly when `lat` or `lng` is absent or
the empty string; a supplied `lat = 0` arrives as the truthy string "0" and
the listing stores the supplied coordinate `[Number(lng), 0]` instead of
the default.  On a full update with a JSON body, where `lat`/`lng` are
numbers, supplying `lat = 0` or `lng = 0` fails the truthiness guard and
leaves the stored coordinates unchanged while the other fields are
updated. -/
theorem zero_coordinate_amended :
    (∀ newId agentId files now b,
        strTruthy b.lat = false ∨ strTruthy b.lng = false →
        (createProperty newId agentId files now b).map Property.coordinates =
          some (0, 0)) ∧
    (∀ newId agentId files now b qla qln,
        jsNumber (optStr b.lat) = JNum.num qla →
        jsNumber (optStr b.lng) = JNum.num qln →
        strTruthy b.lat = true → strTruthy b.lng = true →
        (createProperty newId agentId files now b).map Property.coordinates =
          some (qln, qla)) ∧
    (∀ st idS uid role files b p, isValidObjectIdStr idS = true →
        findById st.docs idS = some p → p.agent = uid →
        b.lat = some 0 ∨ b.lng = some 0 →
        ∃ p2, (putProperty st idS uid role files b).2.property = some p2 ∧
          (putProperty st idS uid role files b).1.docs = saveDoc st.docs p2 ∧
          p2.coordinates = p.coordinates ∧
          p2.title = b.title ∧ p2.description = b.description ∧
          p2.price = b.price ∧ p2.location = b.location ∧
          p2.ptype = b.ptype) := by
  refine ⟨?_, ?_, ?_⟩
  · intro newId agentId files now b hz
    rcases hz with h | h <;> simp [createProperty, h]
  · intro newId agentId files now b qla qln hla hln htla htln
    simp [createProperty, htla, htln, hla, hln]
  · intro st idS uid role files b p hv hf howner hz
    have hguard : (numTruthy b.lat && numTruthy b.lng) = false := by
      rcases hz with h | h <;> simp [numTruthy, h]
    refine ⟨{ p with
        title := b.title
        description := b.description
        price := b.price
        location := b.location
        ptype := b.ptype
        amenities := b.amenities.getD []
        bedrooms := b.bedrooms.getD 0
        bathrooms := b.bathrooms.getD 0
        squareFootage := b.squareFootage.getD 0
        images := if files.isEmpty then p.images else files
        coordinates := p.coordinates }, ?_, ?_, rfl, rfl, rfl, rfl, rfl, rfl⟩
    · simp [putProperty, hv, hf, howner, hguard]
    · simp [putProperty, hv, hf, howner, hguard]

/-- C10 (witness): a create body without `lat` falls back to the default
origin, a create body with the string `"0"` stores the supplied coordinate
`[9, 0]`, and a JSON full update with the number `lat = 0` keeps the stored
coordinates while the other fields change. -/
theorem zero_coordinate_amended_witness :
    (strTruthy createBodyNoLat.lat = false ∧
     (createProperty "eeeeeeeeeeeeeeeeeeeeeeee" "bbbbbbbbbbbbbbbbbbbbbbbb" []
        7 createBodyNoLat).map Property.coordinates = some (0, 0)) ∧
    (jsNumber (optStr createBodyZeroLat.lat) = JNum.num 0 ∧
     jsNumber (optStr createBodyZeroLat.lng) = JNum.num 9 ∧
     strTruthy createBodyZeroLat.lat = true ∧
     strTruthy createBodyZeroLat.lng = true ∧
     (createProperty "eeeeeeeeeeeeeeeeeeeeeeee" "bbbbbbbbbbbbbbbbbbbbbbbb" []
        7 createBodyZeroLat).map Property.coordinates = some (9, 0)) ∧
    (∃ p2, (putProperty stOne "aaaaaaaaaaaaaaaaaaaaaaaa"
          "bbbbbbbbbbbbbbbbbbbbbbbb" "agent" [] putBodyZeroLat).2.property =
        some p2 ∧
      (putProperty stOne "aaaaaaaaaaaaaaaaaaaaaaaa"
          "bbbbbbbbbbbbbbbbbbbbbbbb" "agent" [] putBodyZeroLat).1.docs =
        saveDoc stOne.docs p2 ∧
      p2.coordinates = poolListing.coordinates ∧
      p2.title = putBodyZeroLat.title ∧
      p2.description = putBodyZeroLat.description ∧
      p2.price = putBodyZeroLat.price ∧
      p2.location = putBodyZeroLat.location ∧
      p2.ptype = putBodyZeroLat.ptype) :=
  ⟨⟨rfl,
    zero_coordinate_amended.1 "eeeeeeeeeeeeeeeeeeeeeeee"
      "bbbbbbbbbbbbbbbbbbbbbbbb" [] 7 createBodyNoLat (Or.inl rfl)⟩,
   ⟨by decide, by decide, by decide, by decide,
    zero_coordinate_amended.2.1 "eeeeeeeeeeeeeeeeeeeeeeee"
      "bbbbbbbbbbbbbbbbbbbbbbbb" [] 7 createBodyZeroLat 0 9 (by decide)
      (by decide) (by decide) (by decide)⟩,
   zero_coordinate_amended.2.2 stOne "aaaaaaaaaaaaaaaaaaaaaaaa"
     "bbbbbbbbbbbbbbbbbbbbbbbb" "agent" [] putBodyZeroLat poolListing
     (by decide) (by decide) (by decide) (Or.inl rfl)⟩

end QwikRealEstate
